import Mathlib

/-!
Verification of `src/damage_calculator.py` (star_calc).

The module is a pure arithmetic calculator: one damage-composition
function `calculate_outgoing_damage` built from eight numbered steps,
plus three stat aggregators `calculate_total_atk` / `calculate_total_hp`
/ `calculate_total_def`.  Real-number arithmetic is modelled over `ℚ`;
each numbered step of the Python function is embedded as a named
definition and the main function is their product, exactly as in the
source (lines 53-111).
-/

namespace StarCalc

/-- The 19 named inputs of `calculate_outgoing_damage`
(src/damage_calculator.py lines 4-24).  `attacker_level` is a Python
`int`; every other field is a real number. -/
structure DamageInputs where
  skill_multiplier : ℚ
  scaling_attribute_value : ℚ
  extra_multiplier : ℚ
  extra_dmg : ℚ
  elemental_dmg_bonus_percent : ℚ
  all_type_dmg_bonus_percent : ℚ
  dot_dmg_bonus_percent : ℚ
  other_dmg_bonus_percent : ℚ
  attacker_level : ℤ
  enemy_base_def : ℚ
  enemy_def_percent_buffs_debuffs : ℚ
  def_reduction_percent : ℚ
  def_ignore_percent : ℚ
  enemy_current_res_percent : ℚ
  res_pen_percent : ℚ
  elemental_dmg_taken_bonus_percent : ℚ
  all_type_dmg_taken_bonus_percent : ℚ
  universal_dmg_reduction_sources : List ℚ
  weaken_percent : ℚ
deriving Repr

/-- Step 1 (line 54): `(skill_multiplier + extra_multiplier) *
scaling_attribute_value + extra_dmg`. -/
def base_dmg (skill_multiplier extra_multiplier scaling_attribute_value extra_dmg : ℚ) : ℚ :=
  (skill_multiplier + extra_multiplier) * scaling_attribute_value + extra_dmg

/-- Step 2 (lines 57-63): `1 + elemental + all_type + dot + other`. -/
def dmg_percent_multiplier (elemental all_type dot other : ℚ) : ℚ :=
  1 + elemental + all_type + dot + other

/-- Step 3 (lines 66-69): `max(0, enemy_base_def * (1 + buffs - (reduction + ignore)))`. -/
def enemy_final_def (enemy_base_def buffs reduction ignore : ℚ) : ℚ :=
  max 0 (enemy_base_def * (1 + buffs - (reduction + ignore)))

/-- Step 4 (lines 73-77): `1 - finalDef / (finalDef + 200 + 10*level)`,
with the zero-denominator guard returning 1. -/
def def_multiplier (finalDef : ℚ) (attacker_level : ℤ) : ℚ :=
  let denom := finalDef + 200 + 10 * (attacker_level : ℚ)
  if denom = 0 then 1 else 1 - finalDef / denom

/-- Step 5 (lines 83-85): clamp `enemy_res - res_pen` into `[-1.0, 0.9]`,
then take `1 - clamped`. -/
def res_multiplier (enemy_current_res res_pen : ℚ) : ℚ :=
  1 - max (-1) (min (9/10) (enemy_current_res - res_pen))

/-- Step 6 (lines 88-90): `1 + elemental_taken + all_type_taken`. -/
def dmg_taken_multiplier (elemental_taken all_type_taken : ℚ) : ℚ :=
  1 + elemental_taken + all_type_taken

/-- Step 7 (lines 93-95): starting from 1.0, multiply by `(1 - r)` for
each reduction source in order. -/
def universal_dmg_reduction_multiplier (sources : List ℚ) : ℚ :=
  sources.foldl (fun acc r => acc * (1 - r)) 1

/-- Step 8 (line 98): `1 - weaken_percent`. -/
def weaken_multiplier (weaken_percent : ℚ) : ℚ :=
  1 - weaken_percent

/-- `calculate_outgoing_damage` (src/damage_calculator.py lines 53-111):
the product of the seven multiplicative factors (the clamped defense of
step 3 enters only through step 4). -/
def calculate_outgoing_damage (i : DamageInputs) : ℚ :=
  base_dmg i.skill_multiplier i.extra_multiplier i.scaling_attribute_value i.extra_dmg
    * dmg_percent_multiplier i.elemental_dmg_bonus_percent i.all_type_dmg_bonus_percent
        i.dot_dmg_bonus_percent i.other_dmg_bonus_percent
    * def_multiplier
        (enemy_final_def i.enemy_base_def i.enemy_def_percent_buffs_debuffs
          i.def_reduction_percent i.def_ignore_percent)
        i.attacker_level
    * res_multiplier i.enemy_current_res_percent i.res_pen_percent
    * dmg_taken_multiplier i.elemental_dmg_taken_bonus_percent
        i.all_type_dmg_taken_bonus_percent
    * universal_dmg_reduction_multiplier i.universal_dmg_reduction_sources
    * weaken_multiplier i.weaken_percent

/-- `calculate_total_atk` (lines 113-129). -/
def calculate_total_atk (char_base_atk lc_base_atk atk_percent_bonus flat_atk_bonus : ℚ) : ℚ :=
  (char_base_atk + lc_base_atk) * (1 + atk_percent_bonus) + flat_atk_bonus

/-- `calculate_total_hp` (lines 131-147). -/
def calculate_total_hp (char_base_hp lc_base_hp hp_percent_bonus flat_hp_bonus : ℚ) : ℚ :=
  (char_base_hp + lc_base_hp) * (1 + hp_percent_bonus) + flat_hp_bonus

/-- `calculate_total_def` (lines 149-165). -/
def calculate_total_def (char_base_def lc_base_def def_percent_bonus flat_def_bonus : ℚ) : ℚ :=
  (char_base_def + lc_base_def) * (1 + def_percent_bonus) + flat_def_bonus

/-! ### Spec-side definitions for the refinement claim C1

These follow the wording of the claim, not the source, and are compared
with the source embedding above. -/

/-- Spec wording: base damage
`(skill_multiplier + extra_multiplier) * scaling_attribute_value + extra_dmg`. -/
def claim_base_dmg (i : DamageInputs) : ℚ :=
  (i.skill_multiplier + i.extra_multiplier) * i.scaling_attribute_value + i.extra_dmg

/-- Spec wording: 1 plus the four additive bonus percentages. -/
def claim_dmg_percent (i : DamageInputs) : ℚ :=
  1 + i.elemental_dmg_bonus_percent + i.all_type_dmg_bonus_percent
    + i.dot_dmg_bonus_percent + i.other_dmg_bonus_percent

/-- Spec wording: `D = max(0, enemy_base_def * (1 + buffs - (reduction + ignore)))`. -/
def claim_final_def (i : DamageInputs) : ℚ :=
  max 0 (i.enemy_base_def
    * (1 + i.enemy_def_percent_buffs_debuffs
        - (i.def_reduction_percent + i.def_ignore_percent)))

/-- Spec wording: `1 - D / (D + 200 + 10 * attacker_level)` with `D`
the clamped final defense. -/
def claim_def_mult (i : DamageInputs) : ℚ :=
  if claim_final_def i + 200 + 10 * (i.attacker_level : ℚ) = 0 then 1
  else 1 - claim_final_def i / (claim_final_def i + 200 + 10 * (i.attacker_level : ℚ))

/-- Spec wording: `1 - clamp(enemy_res - res_pen, -1.0, 0.9)`. -/
def claim_res_mult (i : DamageInputs) : ℚ :=
  1 - max (-1) (min (9/10) (i.enemy_current_res_percent - i.res_pen_percent))

/-- Spec wording: 1 plus the two damage-taken bonuses. -/
def claim_dmg_taken (i : DamageInputs) : ℚ :=
  1 + i.elemental_dmg_taken_bonus_percent + i.all_type_dmg_taken_bonus_percent

/-- Spec wording: product over the list of `(1 - r)`. -/
def claim_universal (i : DamageInputs) : ℚ :=
  (i.universal_dmg_reduction_sources.map (fun r => 1 - r)).prod

/-- Spec wording: `1 - weaken_percent`. -/
def claim_weaken (i : DamageInputs) : ℚ :=
  1 - i.weaken_percent

/-! ### Helper products and concrete inputs used by the analysis -/

/-- Product of the six factors of `calculate_outgoing_damage` other than
the weaken multiplier. -/
def rest_without_weaken (i : DamageInputs) : ℚ :=
  base_dmg i.skill_multiplier i.extra_multiplier i.scaling_attribute_value i.extra_dmg
    * dmg_percent_multiplier i.elemental_dmg_bonus_percent i.all_type_dmg_bonus_percent
        i.dot_dmg_bonus_percent i.other_dmg_bonus_percent
    * def_multiplier
        (enemy_final_def i.enemy_base_def i.enemy_def_percent_buffs_debuffs
          i.def_reduction_percent i.def_ignore_percent)
        i.attacker_level
    * res_multiplier i.enemy_current_res_percent i.res_pen_percent
    * dmg_taken_multiplier i.elemental_dmg_taken_bonus_percent
        i.all_type_dmg_taken_bonus_percent
    * universal_dmg_reduction_multiplier i.universal_dmg_reduction_sources

/-- Product of the six factors of `calculate_outgoing_damage` other than
the resistance multiplier. -/
def rest_without_res (i : DamageInputs) : ℚ :=
  base_dmg i.skill_multiplier i.extra_multiplier i.scaling_attribute_value i.extra_dmg
    * dmg_percent_multiplier i.elemental_dmg_bonus_percent i.all_type_dmg_bonus_percent
        i.dot_dmg_bonus_percent i.other_dmg_bonus_percent
    * def_multiplier
        (enemy_final_def i.enemy_base_def i.enemy_def_percent_buffs_debuffs
          i.def_reduction_percent i.def_ignore_percent)
        i.attacker_level
    * dmg_taken_multiplier i.elemental_dmg_taken_bonus_percent
        i.all_type_dmg_taken_bonus_percent
    * universal_dmg_reduction_multiplier i.universal_dmg_reduction_sources
    * weaken_multiplier i.weaken_percent

/-- Product of the six factors of `calculate_outgoing_damage` other than
the universal damage-reduction multiplier. -/
def rest_without_universal (i : DamageInputs) : ℚ :=
  base_dmg i.skill_multiplier i.extra_multiplier i.scaling_attribute_value i.extra_dmg
    * dmg_percent_multiplier i.elemental_dmg_bonus_percent i.all_type_dmg_bonus_percent
        i.dot_dmg_bonus_percent i.other_dmg_bonus_percent
    * def_multiplier
        (enemy_final_def i.enemy_base_def i.enemy_def_percent_buffs_debuffs
          i.def_reduction_percent i.def_ignore_percent)
        i.attacker_level
    * res_multiplier i.enemy_current_res_percent i.res_pen_percent
    * dmg_taken_multiplier i.elemental_dmg_taken_bonus_percent
        i.all_type_dmg_taken_bonus_percent
    * weaken_multiplier i.weaken_percent

/-- A neutral concrete input: unit base damage, every modifier zeroed. -/
def unitInputs : DamageInputs :=
  { skill_multiplier := 1, scaling_attribute_value := 1,
    extra_multiplier := 0, extra_dmg := 0,
    elemental_dmg_bonus_percent := 0, all_type_dmg_bonus_percent := 0,
    dot_dmg_bonus_percent := 0, other_dmg_bonus_percent := 0,
    attacker_level := 1, enemy_base_def := 0,
    enemy_def_percent_buffs_debuffs := 0, def_reduction_percent := 0,
    def_ignore_percent := 0, enemy_current_res_percent := 0,
    res_pen_percent := 0, elemental_dmg_taken_bonus_percent := 0,
    all_type_dmg_taken_bonus_percent := 0,
    universal_dmg_reduction_sources := [], weaken_percent := 0 }

/-- The all-zero damage input. -/
def zeroInputs : DamageInputs :=
  { skill_multiplier := 0, scaling_attribute_value := 0,
    extra_multiplier := 0, extra_dmg := 0,
    elemental_dmg_bonus_percent := 0, all_type_dmg_bonus_percent := 0,
    dot_dmg_bonus_percent := 0, other_dmg_bonus_percent := 0,
    attacker_level := 0, enemy_base_def := 0,
    enemy_def_percent_buffs_debuffs := 0, def_reduction_percent := 0,
    def_ignore_percent := 0, enemy_current_res_percent := 0,
    res_pen_percent := 0, elemental_dmg_taken_bonus_percent := 0,
    all_type_dmg_taken_bonus_percent := 0,
    universal_dmg_reduction_sources := [], weaken_percent := 0 }

/-- The Tingyun example 1 input of `run_prydwen_examples`
(src/damage_calculator.py lines 222-242): 0.258 = 129/500, 0.2 = 1/5,
0.1 = 1/10. -/
def tingyunExample1 : DamageInputs :=
  { skill_multiplier := 3/5, scaling_attribute_value := 1062,
    extra_multiplier := 0, extra_dmg := 0,
    elemental_dmg_bonus_percent := 129/500, all_type_dmg_bonus_percent := 0,
    dot_dmg_bonus_percent := 0, other_dmg_bonus_percent := 1/10,
    attacker_level := 50, enemy_base_def := 700,
    enemy_def_percent_buffs_debuffs := 0, def_reduction_percent := 0,
    def_ignore_percent := 0, enemy_current_res_percent := 1/5,
    res_pen_percent := 0, elemental_dmg_taken_bonus_percent := 0,
    all_type_dmg_taken_bonus_percent := 0,
    universal_dmg_reduction_sources := [1/10], weaken_percent := 0 }

/-- Unfolding lemma for `def_multiplier` with the `let` zeta-reduced. -/
theorem def_multiplier_eq (D : ℚ) (level : ℤ) :
    def_multiplier D level =
      if D + 200 + 10 * (level : ℚ) = 0 then 1
      else 1 - D / (D + 200 + 10 * (level : ℚ)) := rfl

/-- The fold of step 7 equals `c` times the product of the mapped list. -/
theorem foldl_reduction_eq_prod (c : ℚ) (l : List ℚ) :
    l.foldl (fun acc r => acc * (1 - r)) c = c * (l.map (fun r => 1 - r)).prod := by
  induction l generalizing c with
  | nil => simp
  | cons x xs ih =>
      simp only [List.foldl_cons, List.map_cons, List.prod_cons]
      rw [ih]
      ring

/-- C1: `calculate_outgoing_damage` is exactly the product of the seven
spec-described factors; the clamped defense enters only via the defense
multiplier. -/
theorem outgoing_damage_is_product_of_seven_factors (i : DamageInputs) :
    calculate_outgoing_damage i =
      claim_base_dmg i * claim_dmg_percent i * claim_def_mult i * claim_res_mult i
        * claim_dmg_taken i * claim_universal i * claim_weaken i := by
  have hu : universal_dmg_reduction_multiplier i.universal_dmg_reduction_sources
      = claim_universal i := by
    unfold universal_dmg_reduction_multiplier claim_universal
    rw [foldl_reduction_eq_prod, one_mul]
  unfold calculate_outgoing_damage
  rw [hu]
  rfl

/-- C2: with every bonus, defense, resistance, penetration and reduction
zeroed and no reduction sources, the damage collapses to
`(skill_multiplier + extra_multiplier) * scaling_attribute_value + extra_dmg`,
for every attacker level. -/
theorem zero_modifiers_damage_is_base_dmg (sm em v ed : ℚ) (level : ℤ) :
    calculate_outgoing_damage
      { skill_multiplier := sm, scaling_attribute_value := v,
        extra_multiplier := em, extra_dmg := ed,
        elemental_dmg_bonus_percent := 0, all_type_dmg_bonus_percent := 0,
        dot_dmg_bonus_percent := 0, other_dmg_bonus_percent := 0,
        attacker_level := level, enemy_base_def := 0,
        enemy_def_percent_buffs_debuffs := 0, def_reduction_percent := 0,
        def_ignore_percent := 0, enemy_current_res_percent := 0,
        res_pen_percent := 0, elemental_dmg_taken_bonus_percent := 0,
        all_type_dmg_taken_bonus_percent := 0,
        universal_dmg_reduction_sources := [], weaken_percent := 0 }
      = (sm + em) * v + ed := by
  unfold calculate_outgoing_damage base_dmg dmg_percent_multiplier def_multiplier
    res_multiplier dmg_taken_multiplier universal_dmg_reduction_multiplier
    weaken_multiplier enemy_final_def
  norm_num [max_def, min_def]

/-- C3: the resistance multiplier of step 5 equals
`1 - clamp(enemy_res - res_pen, -1.0, 0.9)` and always lies in the
closed interval `[0.1, 2.0]`. -/
theorem res_multiplier_clamp_bounds (ecr rp : ℚ) :
    res_multiplier ecr rp = 1 - max (-1) (min (9/10) (ecr - rp))
    ∧ 1/10 ≤ res_multiplier ecr rp ∧ res_multiplier ecr rp ≤ 2 := by
  refine ⟨rfl, ?_, ?_⟩
  · have h : max (-1 : ℚ) (min (9/10) (ecr - rp)) ≤ 9/10 :=
      max_le (by norm_num) (min_le_left _ _)
    unfold res_multiplier
    linarith
  · have h : (-1 : ℚ) ≤ max (-1) (min (9/10) (ecr - rp)) := le_max_left _ _
    unfold res_multiplier
    linarith

/-- C4: the clamped enemy final defense is never negative; it is exactly 0
whenever the combined reduction/ignore terms exceed the buff term by more
than 1 (with non-negative base defense); for non-negative attacker level
the defense multiplier is at most 1, and it is exactly 1 when the clamped
defense is 0. -/
theorem final_def_floor_and_def_multiplier_le_one
    (bd buffs red ign : ℚ) (level : ℤ) :
    0 ≤ enemy_final_def bd buffs red ign
    ∧ (0 ≤ bd → 1 < red + ign - buffs → enemy_final_def bd buffs red ign = 0)
    ∧ (0 ≤ level → def_multiplier (enemy_final_def bd buffs red ign) level ≤ 1)
    ∧ (enemy_final_def bd buffs red ign = 0 →
        def_multiplier (enemy_final_def bd buffs red ign) level = 1) := by
  refine ⟨le_max_left _ _, ?_, ?_, ?_⟩
  · intro hbd hsum
    unfold enemy_final_def
    have hneg : 1 + buffs - (red + ign) ≤ 0 := by linarith
    exact max_eq_left (mul_nonpos_of_nonneg_of_nonpos hbd hneg)
  · intro hlevel
    have hD : 0 ≤ enemy_final_def bd buffs red ign := le_max_left _ _
    have hlq : (0 : ℚ) ≤ (level : ℚ) := by exact_mod_cast hlevel
    rw [def_multiplier_eq]
    split_ifs with hden
    · exact le_rfl
    · have hdenom : 0 ≤ enemy_final_def bd buffs red ign + 200 + 10 * (level : ℚ) := by
        linarith
      have := div_nonneg hD hdenom
      linarith
  · intro hzero
    rw [def_multiplier_eq, hzero]
    split_ifs with hden
    · rfl
    · rw [zero_div, sub_zero]

/-- Closed witness for `final_def_floor_and_def_multiplier_le_one` at a
concrete over-reduced input. -/
theorem final_def_floor_witness :
    enemy_final_def 100 0 2 0 = 0
    ∧ def_multiplier (enemy_final_def 100 0 2 0) 50 ≤ 1
    ∧ def_multiplier (enemy_final_def 100 0 2 0) 50 = 1 := by
  have h := final_def_floor_and_def_multiplier_le_one 100 0 2 0 50
  have h0 : enemy_final_def 100 0 2 0 = 0 := h.2.1 (by norm_num) (by norm_num)
  exact ⟨h0, h.2.2.1 (by norm_num), h.2.2.2 h0⟩

/-- C5: the defense multiplier never divides by zero: when the denominator
is exactly 0 the multiplier is defined as 1 by the guard, and for every
non-negative attacker level the denominator is at least 200 (the clamped
defense being non-negative), making the guard unreachable there. -/
theorem def_multiplier_zero_denominator_guard
    (bd buffs red ign : ℚ) (level : ℤ) :
    (enemy_final_def bd buffs red ign + 200 + 10 * (level : ℚ) = 0 →
      def_multiplier (enemy_final_def bd buffs red ign) level = 1)
    ∧ (0 ≤ level →
        200 ≤ enemy_final_def bd buffs red ign + 200 + 10 * (level : ℚ)) := by
  constructor
  · intro hden
    rw [def_multiplier_eq, if_pos hden]
  · intro hlevel
    have hD : 0 ≤ enemy_final_def bd buffs red ign := le_max_left _ _
    have hlq : (0 : ℚ) ≤ (level : ℚ) := by exact_mod_cast hlevel
    linarith

/-- Closed witness for `def_multiplier_zero_denominator_guard`: the guard
fires at zero defense and level -20, and the denominator bound holds at
level 7. -/
theorem def_multiplier_guard_witness :
    def_multiplier (enemy_final_def 0 0 0 0) (-20) = 1
    ∧ 200 ≤ enemy_final_def 0 0 0 0 + 200 + 10 * ((7 : ℤ) : ℚ) := by
  have h1 := def_multiplier_zero_denominator_guard 0 0 0 0 (-20)
  have h2 := def_multiplier_zero_denominator_guard 0 0 0 0 7
  refine ⟨h1.1 ?_, h2.2 (by norm_num)⟩
  show enemy_final_def 0 0 0 0 + 200 + 10 * ((-20 : ℤ) : ℚ) = 0
  norm_num [enemy_final_def]

/-- `calculate_outgoing_damage` factored with the weaken multiplier last. -/
theorem outgoing_eq_rest_weaken (i : DamageInputs) :
    calculate_outgoing_damage i
      = rest_without_weaken i * weaken_multiplier i.weaken_percent := rfl

/-- `calculate_outgoing_damage` factored with the resistance multiplier last. -/
theorem outgoing_eq_rest_res (i : DamageInputs) :
    calculate_outgoing_damage i
      = rest_without_res i
          * res_multiplier i.enemy_current_res_percent i.res_pen_percent := by
  unfold calculate_outgoing_damage rest_without_res
  ring

/-- `calculate_outgoing_damage` factored with the universal reduction
multiplier last. -/
theorem outgoing_eq_rest_universal (i : DamageInputs) :
    calculate_outgoing_damage i
      = rest_without_universal i
          * universal_dmg_reduction_multiplier i.universal_dmg_reduction_sources := by
  unfold calculate_outgoing_damage rest_without_universal
  ring

/-- The universal reduction multiplier is invariant under permutation of
the source list. -/
theorem universal_mult_perm (l l' : List ℚ) (h : l.Perm l') :
    universal_dmg_reduction_multiplier l = universal_dmg_reduction_multiplier l' := by
  unfold universal_dmg_reduction_multiplier
  rw [foldl_reduction_eq_prod, foldl_reduction_eq_prod,
    (h.map fun r => 1 - r).prod_eq]

/-- The resistance multiplier is monotone non-decreasing in the
penetration argument. -/
theorem res_multiplier_mono (ecr p p' : ℚ) (h : p ≤ p') :
    res_multiplier ecr p ≤ res_multiplier ecr p' := by
  unfold res_multiplier
  have h1 : min (9/10 : ℚ) (ecr - p') ≤ min (9/10) (ecr - p) :=
    min_le_min le_rfl (by linarith)
  have h2 : max (-1 : ℚ) (min (9/10) (ecr - p')) ≤ max (-1) (min (9/10) (ecr - p)) :=
    max_le_max le_rfl h1
  linarith

/-- C6: the universal reduction term is the fold product of `(1 - r)`
starting from 1.0: the empty list gives multiplier exactly 1 and the call
then equals the product of the remaining six factors; the result is
invariant under permuting the list; and sources `[0.1, 0.05]` give the
same damage as the single source `[0.145]`. -/
theorem universal_reduction_fold_properties (i : DamageInputs) (l l' : List ℚ) :
    universal_dmg_reduction_multiplier ([] : List ℚ) = 1
    ∧ calculate_outgoing_damage { i with universal_dmg_reduction_sources := [] }
        = rest_without_universal i
    ∧ (l.Perm l' →
        calculate_outgoing_damage { i with universal_dmg_reduction_sources := l }
          = calculate_outgoing_damage { i with universal_dmg_reduction_sources := l' })
    ∧ calculate_outgoing_damage
        { i with universal_dmg_reduction_sources := [1/10, 1/20] }
        = calculate_outgoing_damage
            { i with universal_dmg_reduction_sources := [29/200] } := by
  have key : ∀ m : List ℚ,
      calculate_outgoing_damage { i with universal_dmg_reduction_sources := m }
        = rest_without_universal i * universal_dmg_reduction_multiplier m := by
    intro m
    rw [outgoing_eq_rest_universal]
    rfl
  refine ⟨rfl, ?_, ?_, ?_⟩
  · rw [key]
    show rest_without_universal i * 1 = _
    rw [mul_one]
  · intro h
    rw [key, key, universal_mult_perm l l' h]
  · rw [key, key]
    norm_num [universal_dmg_reduction_multiplier]

/-- Closed witness for `universal_reduction_fold_properties`: permutation
invariance at a concrete swapped pair of sources. -/
theorem universal_reduction_fold_witness :
    calculate_outgoing_damage
      { unitInputs with universal_dmg_reduction_sources := [1/10, 1/20] }
      = calculate_outgoing_damage
          { unitInputs with universal_dmg_reduction_sources := [1/20, 1/10] } :=
  (universal_reduction_fold_properties unitInputs [1/10, 1/20] [1/20, 1/10]).2.2.1
    (List.Perm.swap (1/20) (1/10) [])

/-- C7 counterexample: at the all-zero input the damage is 0 for every
weaken value, so raising `weaken_percent` from 0 to 1/2 does not strictly
decrease the result; and when the other factors multiply to a negative
value (weaken 2 at the unit input), raising `res_pen_percent` from 0 to
1/4 strictly decreases the result.  The claim as stated (for every fixed
choice of the other inputs) is false on both parts. -/
theorem monotonicity_claim_counterexample :
    ¬ (calculate_outgoing_damage { zeroInputs with weaken_percent := 1/2 }
        < calculate_outgoing_damage zeroInputs)
    ∧ calculate_outgoing_damage
        { unitInputs with enemy_current_res_percent := 1/2, weaken_percent := 2, res_pen_percent := 1/4 }
      < calculate_outgoing_damage
          { unitInputs with enemy_current_res_percent := 1/2, weaken_percent := 2 } := by
  constructor <;>
  norm_num [calculate_outgoing_damage, zeroInputs, unitInputs, base_dmg,
    dmg_percent_multiplier, def_multiplier_eq, enemy_final_def, res_multiplier,
    dmg_taken_multiplier, universal_dmg_reduction_multiplier, weaken_multiplier,
    max_def, min_def]

/-- C7 amended: increasing `weaken_percent` within `[0,1]` strictly
decreases the damage provided the product of the other six factors (the
damage at zero weaken) is positive, and increasing `res_pen_percent`
never decreases the damage provided the product of the other six factors
(the damage at zero resistance and zero penetration) is non-negative. -/
theorem damage_monotone_weaken_res_pen (i : DamageInputs) (w w' p p' : ℚ) :
    (0 ≤ w → w < w' → w' ≤ 1 →
      0 < calculate_outgoing_damage { i with weaken_percent := 0 } →
      calculate_outgoing_damage { i with weaken_percent := w' }
        < calculate_outgoing_damage { i with weaken_percent := w })
    ∧ (p ≤ p' →
        0 ≤ calculate_outgoing_damage
              { i with enemy_current_res_percent := 0, res_pen_percent := 0 } →
        calculate_outgoing_damage { i with res_pen_percent := p }
          ≤ calculate_outgoing_damage { i with res_pen_percent := p' }) := by
  constructor
  · intro hw0 hww hw1 hpos
    have hpos' : 0 < rest_without_weaken i := by
      rw [outgoing_eq_rest_weaken] at hpos
      have h0 : rest_without_weaken { i with weaken_percent := 0 }
          * weaken_multiplier ({ i with weaken_percent := 0 }).weaken_percent
          = rest_without_weaken i * 1 := by
        show rest_without_weaken i * weaken_multiplier 0 = rest_without_weaken i * 1
        norm_num [weaken_multiplier]
      rw [h0, mul_one] at hpos
      exact hpos
    rw [outgoing_eq_rest_weaken, outgoing_eq_rest_weaken]
    show rest_without_weaken i * weaken_multiplier w'
      < rest_without_weaken i * weaken_multiplier w
    unfold weaken_multiplier
    exact mul_lt_mul_of_pos_left (by linarith) hpos'
  · intro hp hS
    have hS' : 0 ≤ rest_without_res i := by
      have heq : calculate_outgoing_damage
          { i with enemy_current_res_percent := 0, res_pen_percent := 0 }
          = rest_without_res i := by
        rw [outgoing_eq_rest_res]
        show rest_without_res i * res_multiplier 0 0 = rest_without_res i
        norm_num [res_multiplier, max_def, min_def]
      rw [heq] at hS
      exact hS
    rw [outgoing_eq_rest_res, outgoing_eq_rest_res]
    show rest_without_res i * res_multiplier i.enemy_current_res_percent p
      ≤ rest_without_res i * res_multiplier i.enemy_current_res_percent p'
    exact mul_le_mul_of_nonneg_left (res_multiplier_mono _ _ _ hp) hS'

/-- Closed witness for `damage_monotone_weaken_res_pen` at the neutral
unit input, where the other factors multiply to 1. -/
theorem damage_monotone_witness :
    calculate_outgoing_damage { unitInputs with weaken_percent := 1/2 }
      < calculate_outgoing_damage { unitInputs with weaken_percent := 0 }
    ∧ calculate_outgoing_damage { unitInputs with res_pen_percent := 0 }
      ≤ calculate_outgoing_damage { unitInputs with res_pen_percent := 1/10 } := by
  have h := damage_monotone_weaken_res_pen unitInputs 0 (1/2) 0 (1/10)
  refine ⟨h.1 le_rfl (by norm_num) (by norm_num) ?_, h.2 (by norm_num) ?_⟩
  · norm_num [calculate_outgoing_damage, unitInputs, base_dmg, dmg_percent_multiplier,
      def_multiplier_eq, enemy_final_def, res_multiplier, dmg_taken_multiplier,
      universal_dmg_reduction_multiplier, weaken_multiplier, max_def, min_def]
  · norm_num [calculate_outgoing_damage, unitInputs, base_dmg, dmg_percent_multiplier,
      def_multiplier_eq, enemy_final_def, res_multiplier, dmg_taken_multiplier,
      universal_dmg_reduction_multiplier, weaken_multiplier, max_def, min_def]

/-- C8: the three stat aggregators all compute
`(base + equipment_base) * (1 + percent_bonus) + flat_bonus`, are
extensionally equal to one another, and return `base + equip` at zero
bonuses. -/
theorem stat_aggregators_identical (b e pct flat : ℚ) :
    calculate_total_atk b e pct flat = (b + e) * (1 + pct) + flat
    ∧ calculate_total_atk b e pct flat = calculate_total_hp b e pct flat
    ∧ calculate_total_hp b e pct flat = calculate_total_def b e pct flat
    ∧ calculate_total_atk b e 0 0 = b + e := by
  refine ⟨rfl, rfl, rfl, ?_⟩
  unfold calculate_total_atk
  ring

/-- C9: the Tingyun example-1 scenario of `run_prydwen_examples` produces
a damage value within 1.0 of the expected 312 (the exact value is
9734823/31250 = 311.514336). -/
theorem tingyun_example1_within_tolerance :
    |calculate_outgoing_damage tingyunExample1 - 312| < 1 := by
  rw [abs_sub_lt_iff]
  norm_num [calculate_outgoing_damage, tingyunExample1, base_dmg,
    dmg_percent_multiplier, def_multiplier_eq, enemy_final_def, res_multiplier,
    dmg_taken_multiplier, universal_dmg_reduction_multiplier, weaken_multiplier,
    max_def, min_def]

/-- C10: with zero flat extra damage, `calculate_outgoing_damage` is
homogeneous of degree 1 in the scaling attribute value: scaling the
attribute by `k` scales the damage by exactly `k`. -/
theorem damage_homogeneous_in_scaling (i : DamageInputs) (k v : ℚ)
    (h : i.extra_dmg = 0) :
    calculate_outgoing_damage { i with scaling_attribute_value := k * v }
      = k * calculate_outgoing_damage { i with scaling_attribute_value := v } := by
  show base_dmg i.skill_multiplier i.extra_multiplier (k * v) i.extra_dmg * _ * _ * _ * _ * _ * _
    = k * (base_dmg i.skill_multiplier i.extra_multiplier v i.extra_dmg * _ * _ * _ * _ * _ * _)
  unfold base_dmg
  rw [h]
  ring

/-- Closed witness for `damage_homogeneous_in_scaling` at the neutral
unit input with scale 2 and value 3. -/
theorem damage_homogeneous_witness :
    calculate_outgoing_damage { unitInputs with scaling_attribute_value := 2 * 3 }
      = 2 * calculate_outgoing_damage { unitInputs with scaling_attribute_value := 3 } :=
  damage_homogeneous_in_scaling unitInputs 2 3 rfl

end StarCalc
